import Mathlib

/-!
Verification development for `generate-slideshow.py` (epox-monorepo,
`apps/scenergy-visualizer/design-log/`).

The script builds a PPTX deck with python-pptx.  We shallowly embed the
slide-composition functions: lengths (`Inches`) become exact rationals
measured in inches, font sizes (`Pt`) rationals measured in points, colors
triples of naturals, and each slide the ordered list of shapes the function
emits.  The fallible parts (the `12 / num_cols` division and out-of-range
table-cell writes raised by the backend) are embedded in `Except String`.
-/

namespace Slideshow

/-- RGB color, embedding `pptx.dml.color.RGBColor`. -/
structure RGB where
  r : Nat
  g : Nat
  b : Nat
deriving DecidableEq, Repr

/-- Embeds `DARK_BG = RGBColor(24, 24, 27)` (zinc-900). -/
def DARK_BG : RGB := ⟨24, 24, 27⟩

/-- Embeds `PRIMARY = RGBColor(99, 102, 241)` (indigo-500). -/
def PRIMARY : RGB := ⟨99, 102, 241⟩

/-- Embeds `ACCENT = RGBColor(34, 197, 94)` (green-500); defined by the script, never used. -/
def ACCENT : RGB := ⟨34, 197, 94⟩

/-- Embeds `TEXT_WHITE = RGBColor(255, 255, 255)`. -/
def TEXT_WHITE : RGB := ⟨255, 255, 255⟩

/-- Embeds `TEXT_GRAY = RGBColor(161, 161, 170)` (zinc-400). -/
def TEXT_GRAY : RGB := ⟨161, 161, 170⟩

/-- Embeds `CARD_BG = RGBColor(39, 39, 42)` (zinc-800). -/
def CARD_BG : RGB := ⟨39, 39, 42⟩

/-- Embeds `prs.slide_width = Inches(13.333)`. -/
def slide_width : ℚ := 13333 / 1000

/-- Embeds `prs.slide_height = Inches(7.5)`. -/
def slide_height : ℚ := 15 / 2

/-- Paragraph alignment; the script only ever sets `PP_ALIGN.CENTER`. -/
inductive PPAlign where
  | center
deriving DecidableEq, Repr

/-- One paragraph of a text frame: its text plus the font attributes the
script assigns (unset attributes stay `none`, the None of python-pptx). -/
structure Para where
  text : String
  size : Option ℚ
  bold : Option Bool
  color : Option RGB
  fontName : Option String
  alignment : Option PPAlign
  spaceAfter : Option ℚ
deriving DecidableEq, Repr

/-- A freshly added text frame holds one empty default paragraph. -/
def defPara : Para := ⟨"", none, none, none, none, none, none⟩

/-- A text box shape (`slide.shapes.add_textbox`): geometry in inches,
the `word_wrap` of the frame (default `none` = inherit), and its paragraphs. -/
structure TextBox where
  left : ℚ
  top : ℚ
  width : ℚ
  height : ℚ
  wordWrap : Option Bool
  paras : List Para
deriving DecidableEq, Repr

/-- One table cell: text plus the fill and paragraph attributes the script sets. -/
structure TCell where
  text : String
  fill : Option RGB
  size : Option ℚ
  bold : Option Bool
  color : Option RGB
  alignment : Option PPAlign
deriving DecidableEq, Repr

/-- A freshly created table cell is empty with default formatting. -/
def emptyCell : TCell := ⟨"", none, none, none, none, none⟩

/-- The table graphic frame added by `slide.shapes.add_table(num_rows,
num_cols, left, top, width, height)`: its grid dimensions, geometry, and
cell contents (as a total function over row/column indices; only indices
below the dimensions are meaningful). -/
structure TableShape where
  nRows : Nat
  nCols : Nat
  left : ℚ
  top : ℚ
  width : ℚ
  height : ℚ
  cell : Nat → Nat → TCell

/-- Auto-shape kinds used by the script (`MSO_SHAPE.…`). -/
inductive AutoKind where
  | rect
  | roundedRect
  | rightArrow
deriving DecidableEq, Repr

/-- A shape on a slide: an auto shape (rectangle / rounded rectangle /
right arrow) with fill, line color and line width, a text box, or a table. -/
inductive Shape where
  | auto (kind : AutoKind) (left top width height : ℚ)
      (fill : Option RGB) (lineColor : Option RGB) (lineWidthPt : Option ℚ)
  | tbox (b : TextBox)
  | tbl (t : TableShape)

/-- Left edge of a shape, in inches. -/
def Shape.leftQ : Shape → ℚ
  | .auto _ l _ _ _ _ _ _ => l
  | .tbox b => b.left
  | .tbl t => t.left

/-- Width of a shape, in inches. -/
def Shape.widthQ : Shape → ℚ
  | .auto _ _ _ w _ _ _ _ => w
  | .tbox b => b.width
  | .tbl t => t.width

/-- A rendered slide: the ordered shapes the composer emitted onto it. -/
structure Slide where
  shapes : List Shape

/-- The prologue every non-title composer repeats: full-canvas background
rectangle filled `DARK_BG`, a `CARD_BG` title bar of height `Inches(1.2)`,
and the title text box at `(0.5, 0.35)`, `Pt(32)`, bold, white. -/
def slideBase (title : String) : List Shape :=
  [ .auto .rect 0 0 slide_width slide_height (some DARK_BG) none none,
    .auto .rect 0 0 slide_width (6/5) (some CARD_BG) none none,
    .tbox ⟨1/2, 7/20, 12, 7/10, none,
      [⟨title, some 32, some true, some TEXT_WHITE, none, none, none⟩]⟩ ]

/-! ### `add_title_slide` -/

/-- Embeds `add_title_slide(title, subtitle="")`: dark background, centered 54pt
bold white title at `(0.5, 2.5)`, and — only when `subtitle` is truthy
(non-empty) — a centered 24pt gray subtitle at `(0.5, 4.2)`. -/
def add_title_slide (title : String) (subtitle : String) : Slide :=
  { shapes :=
      [ .auto .rect 0 0 slide_width slide_height (some DARK_BG) none none,
        .tbox ⟨1/2, 5/2, 12333/1000, 3/2, none,
          [⟨title, some 54, some true, some TEXT_WHITE, none, some .center, none⟩]⟩ ] ++
      (if subtitle = "" then []
       else
        [ .tbox ⟨1/2, 21/5, 12333/1000, 1, none,
            [⟨subtitle, some 24, none, some TEXT_GRAY, none, some .center, none⟩]⟩ ]) }

/-! ### `add_table_slide` -/

/-- The cell the header loop produces for header text `h`: `PRIMARY` fill,
`Pt(16)`, bold, white, centered. -/
def headerCell (h : String) : TCell :=
  ⟨h, some PRIMARY, some 16, some true, some TEXT_WHITE, some .center⟩

/-- The cell the data loop produces for value `v`: `CARD_BG` fill,
`Pt(14)`, white, centered. -/
def dataCell (v : String) : TCell :=
  ⟨v, some CARD_BG, some 14, none, some TEXT_WHITE, some .center⟩

/-- Embeds `table.cell(r, c)` assignment: python-pptx indexes the underlying row
and cell lists, so an index at or beyond the grid dimensions raises
`IndexError`; otherwise the cell is overwritten. -/
def setCell (t : TableShape) (r c : Nat) (v : TCell) : Except String TableShape :=
  if r < t.nRows ∧ c < t.nCols then
    .ok { t with cell := fun r' c' => if r' = r ∧ c' = c then v else t.cell r' c' }
  else
    .error "IndexError"

/-- The header loop `for i, header in enumerate(headers)`, writing
`headerCell` into row 0, columns `i, i+1, …`. -/
def writeHeaders (i : Nat) (hs : List String) (t : TableShape) : Except String TableShape :=
  match hs with
  | [] => .ok t
  | h :: rest =>
    match setCell t 0 i (headerCell h) with
    | .ok t' => writeHeaders (i + 1) rest t'
    | .error e => .error e

/-- The inner data loop `for col_idx, value in enumerate(row)`, writing
`dataCell` into row `r`, columns `ci, ci+1, …`. -/
def writeRow (r ci : Nat) (row : List String) (t : TableShape) : Except String TableShape :=
  match row with
  | [] => .ok t
  | v :: rest =>
    match setCell t r ci (dataCell v) with
    | .ok t' => writeRow r (ci + 1) rest t'
    | .error e => .error e

/-- The outer data loop `for row_idx, row in enumerate(rows)`, writing row
`ri` of the data into grid row `ri + 1`. -/
def writeRows (ri : Nat) (rs : List (List String)) (t : TableShape) : Except String TableShape :=
  match rs with
  | [] => .ok t
  | row :: rest =>
    match writeRow (ri + 1) 0 row t with
    | .ok t' => writeRows (ri + 1) rest t'
    | .error e => .error e

/-- Embeds `add_table_slide(title, headers, rows)`: standard prologue, then a
`(len(rows)+1) × len(headers)` table at `(0.5, 1.6)` of width `Inches(12)`
and height `Inches(0.5 * num_rows)`; the header row is filled from
`headers` and the data rows from `rows`.  `col_width = Inches(12 /
num_cols)` raises `ZeroDivisionError` when `headers` is empty, before the
table is created. -/
def add_table_slide (title : String) (headers : List String) (rows : List (List String)) :
    Except String Slide :=
  let num_cols := headers.length
  let num_rows := rows.length + 1
  if num_cols = 0 then .error "ZeroDivisionError"
  else
    let t0 : TableShape :=
      { nRows := num_rows, nCols := num_cols,
        left := 1/2, top := 8/5, width := 12, height := 1/2 * num_rows,
        cell := fun _ _ => emptyCell }
    match writeHeaders 0 headers t0 with
    | .error e => .error e
    | .ok t1 =>
      match writeRows 0 rows t1 with
      | .error e => .error e
      | .ok t2 => .ok { shapes := slideBase title ++ [.tbl t2] }

/-- Width python-pptx gives each column of a table created with a total
width: the width divided evenly by the column count. -/
def colWidthOf (t : TableShape) : ℚ := t.width / t.nCols

/-- Height python-pptx gives each row of a table created with a total
height: the height divided evenly by the row count. -/
def rowHeightOf (t : TableShape) : ℚ := t.height / t.nRows

/-- The horizontal body region every non-title slide uses (boxes from
`Inches(0.5)` of width `Inches(12)`). -/
def bodyWidth : ℚ := 12

/-! ### `add_content_slide` -/

/-- One entry of `content_items`: in the source the list informally mixes
plain strings and `(header, sub_items)` tuples, discriminated at runtime
with `isinstance(item, tuple)`. -/
inductive ContentItem where
  | plain (s : String)
  | group (header : String) (subs : List String)
deriving DecidableEq, Repr

/-- A text frame built by the `paragraphs[0]` / `add_paragraph()` loop
pattern: the frame keeps its initial empty paragraph when the loop body
never runs, else holds exactly the generated paragraphs. -/
def loopParas (ps : List Para) : List Para :=
  match ps with
  | [] => [defPara]
  | _ => ps

/-- Python tuple unpacking `(col_title, items) = item` in the two-column
loop: a `group` unpacks to its components; a plain string unpacks
character-wise, succeeding only when it has exactly two characters (its
second character then iterates as the single one-character item);
otherwise `ValueError` is raised. -/
def unpackPair (item : ContentItem) : Except String (String × List String) :=
  match item with
  | .group h subs => .ok (h, subs)
  | .plain s =>
    match s.data with
    | [a, b] => .ok (String.singleton a, [String.singleton b])
    | _ => .error "ValueError"

/-- Column left positions: `Inches(0.5) if i == 0 else Inches(6.8)`. -/
def colLeft (i : Nat) : ℚ := if i = 0 then 1/2 else 34/5

/-- The two shapes one iteration of the two-column loop emits: the column
title box (`Pt(22)`, bold, `PRIMARY`) and the bulleted items box
(`word_wrap = True`, `Pt(18)` white bullets with 12pt spacing). -/
def twoColPair (i : Nat) (col_title : String) (items : List String) : List Shape :=
  [ .tbox ⟨colLeft i, 8/5, 11/2, 1/2, none,
      [⟨col_title, some 22, some true, some PRIMARY, none, none, none⟩]⟩,
    .tbox ⟨colLeft i, 11/5, 11/2, 9/2, some true,
      loopParas (items.map fun item =>
        ⟨"• " ++ item, some 18, none, some TEXT_WHITE, none, none, some 12⟩)⟩ ]

/-- The two-column loop `for i, (col_title, items) in enumerate(content_items)`. -/
def twoColShapes (i : Nat) (items : List ContentItem) : Except String (List Shape) :=
  match items with
  | [] => .ok []
  | item :: rest =>
    match unpackPair item with
    | .error e => .error e
    | .ok (col_title, its) =>
      match twoColShapes (i + 1) rest with
      | .error e => .error e
      | .ok shs => .ok (twoColPair i col_title its ++ shs)

/-- Paragraphs one `content_items` entry contributes in the single-column
branch: a plain string becomes one `Pt(20)` bullet; a tuple becomes a
`Pt(22)` bold `PRIMARY` header followed by indented `Pt(18)` bullets. -/
def singleItemParas (item : ContentItem) : List Para :=
  match item with
  | .plain s => [⟨"• " ++ s, some 20, none, some TEXT_WHITE, none, none, some 12⟩]
  | .group h subs =>
    ⟨h, some 22, some true, some PRIMARY, none, none, some 4⟩ ::
      subs.map fun sub => ⟨"    • " ++ sub, some 18, none, some TEXT_WHITE, none, none, some 8⟩

/-- Embeds `add_content_slide(title, content_items, has_columns=False)`: standard
prologue, then either the two-column layout (only when `has_columns and
len(content_items) == 2`) or a single full-width bulleted column. -/
def add_content_slide (title : String) (content_items : List ContentItem)
    (has_columns : Bool) : Except String Slide :=
  if has_columns && content_items.length == 2 then
    match twoColShapes 0 content_items with
    | .error e => .error e
    | .ok shs => .ok { shapes := slideBase title ++ shs }
  else
    .ok { shapes := slideBase title ++
      [ .tbox ⟨1/2, 8/5, 12, 11/2, some true,
          loopParas (content_items.flatMap singleItemParas)⟩ ] }

/-! ### `add_diagram_slide` -/

/-- Embeds `add_diagram_slide(title, diagram_text)`: standard prologue, a rounded
`CARD_BG` panel over the body, and inside it a text box with
`word_wrap = False` holding the diagram text in `Pt(11)` Courier New. -/
def add_diagram_slide (title : String) (diagram_text : String) : Slide :=
  { shapes := slideBase title ++
      [ .auto .roundedRect (1/2) (3/2) (12333/1000) (11/2) (some CARD_BG) none none,
        .tbox ⟨4/5, 9/5, 11733/1000, 5, some false,
          [⟨diagram_text, some 11, none, some TEXT_WHITE, some "Courier New", none, none⟩]⟩ ] }

/-- The text content of a text frame, as the `text_frame.text` getter of python-pptx
reports it: the paragraph texts joined by line breaks. -/
def frameText (ps : List Para) : String :=
  match ps with
  | [] => ""
  | [p] => p.text
  | p :: rest => p.text ++ "\n" ++ frameText rest

/-! ### `add_flow_cards_slide` -/

/-- Embeds `card_width = Inches(2.8)`. -/
def card_width : ℚ := 14/5

/-- Embeds `left = start_left + (card_width + gap) * i` with `start_left =
Inches(0.5)` and `gap = Inches(0.3)`. -/
def cardLeft (i : Nat) : ℚ := 1/2 + (14/5 + 3/10) * i

/-- The shapes one iteration of the card loop emits: the rounded card
panel (`CARD_BG` fill, `PRIMARY` 2pt border), its centered `Pt(18)` bold
title box, its `Pt(13)` bulleted content box, and — except after the last
card — a small `PRIMARY` right-arrow in the following gap. -/
def flowCardShapes (n i : Nat) (card_title : String) (card_items : List String) : List Shape :=
  [ .auto .roundedRect (cardLeft i) (8/5) card_width (9/2) (some CARD_BG) (some PRIMARY) (some 2),
    .tbox ⟨cardLeft i + 1/10, 9/5, card_width - 1/5, 1/2, none,
      [⟨card_title, some 18, some true, some PRIMARY, none, some .center, none⟩]⟩,
    .tbox ⟨cardLeft i + 3/20, 12/5, card_width - 3/10, 7/2, some true,
      loopParas (card_items.map fun item =>
        ⟨"• " ++ item, some 13, none, some TEXT_WHITE, none, none, some 6⟩)⟩ ] ++
  (if i < n - 1 then
    [ .auto .rightArrow (cardLeft i + card_width + 1/20) (7/2) (1/5) (3/10)
        (some PRIMARY) none none ]
   else [])

/-- The card loop `for i, (card_title, card_items) in enumerate(cards)`. -/
def flowLoop (n i : Nat) (cards : List (String × List String)) : List Shape :=
  match cards with
  | [] => []
  | (card_title, card_items) :: rest =>
    flowCardShapes n i card_title card_items ++ flowLoop n (i + 1) rest

/-- Embeds `add_flow_cards_slide(title, cards)`: standard prologue followed by the
left-to-right cards with connector arrows between adjacent pairs. -/
def add_flow_cards_slide (title : String) (cards : List (String × List String)) : Slide :=
  { shapes := slideBase title ++ flowLoop cards.length 0 cards }

/-- Is this shape a rounded-rectangle card panel? -/
def Shape.isCardPanel : Shape → Bool
  | .auto .roundedRect _ _ _ _ _ _ _ => true
  | _ => false

/-- Is this shape a right-arrow connector? -/
def Shape.isArrow : Shape → Bool
  | .auto .rightArrow _ _ _ _ _ _ _ => true
  | _ => false

/-- Does the slide place any shape at the second-column position
`Inches(6.8)`?  Only the two-column content branch ever does. -/
def rendersTwoColumns (s : Slide) : Bool :=
  s.shapes.any fun sh => decide (sh.leftQ = 34/5)

/-! ### The module-level script: the 18 authored slides, save, and print -/

/-- Slides 1–18 of the script, in authored order, collected into the
deck that `prs.slides` holds at the end of the run. -/
def theDeck : Except String (List Slide) := do
  let s1 := add_title_slide "🎨 Scenergy Visualizer"
    "AI-Powered Product Visualization Platform"
  let s2 ← add_content_slide "What is Scenergy Visualizer?"
    [ .plain "AI-powered platform for generating professional product images",
      .plain "Transform product photos into styled room visualizations",
      .plain "Bulk generation for entire catalogs (50-1000+ products)",
      .plain "Direct sync to e-commerce stores (Shopify, WooCommerce, BigCommerce)",
      .plain "WebP-optimized images ready for CDN delivery" ] false
  let s3 ← add_content_slide "The Problem We\u0027re Solving"
    [ .group "Traditional Product Photography"
        [ "Expensive: $500-1,000+ per product",
          "Slow: 3-5 weeks turnaround",
          "Limited scene variety",
          "Manual coordination required" ],
      .group "Our Solution"
        [ "Generate hundreds of images in minutes",
          "Fraction of the cost",
          "Unlimited style variations",
          "Fully automated workflow" ] ] false
  let s4 ← add_content_slide "Two Ways to Get Started"
    [ .group "🏪 Path A: Connect Store"
        [ "Connect Shopify, WooCommerce, or BigCommerce",
          "Import products directly",
          "Approve images → Auto-sync to store",
          "Full bidirectional sync with ERP ID" ],
      .group "📤 Path B: Upload Manually"
        [ "No store connection required",
          "Upload product images directly",
          "Generate images",
          "Download only (no store sync)" ] ] true
  let s5 := add_flow_cards_slide "User Journey: Store Connected"
    [ ("1. Connect", ["OAuth with store", "Select platform", "Authorize access"]),
      ("2. Import", ["By product IDs", "By category", "Or all products"]),
      ("3. Generate", ["Select products", "Choose inspiration", "AI generates images"]),
      ("4. Review", ["Side-by-side compare", "Approve / Reject", "Edit if needed"]) ]
  let s6 ← add_table_slide "Product Import Options"
    ["Method", "Best For", "Description"]
    [ ["By Product IDs", "Specific items", "Paste SKUs or product IDs"],
      ["By Category", "Focused batches", "Select store categories"],
      ["All Products", "Full catalog", "Import everything at once"] ]
  let s7 ← add_table_slide "Subscription Tiers"
    ["Plan", "Max Products", "Monthly Credits", "Price"]
    [ ["Starter", "50", "100", "Free"],
      ["Pro", "100", "1,000", "$49/mo"],
      ["Business", "500", "5,000", "$199/mo"],
      ["Enterprise", "1,000+", "Unlimited", "Custom"] ]
  let s8 ← add_content_slide "Collection Session Workflow"
    [ .plain "Step 1: Select Products — Choose products from your library",
      .plain "Step 2: AI Analysis — AI detects product types, styles, colors",
      .plain "Step 3: Choose Inspiration — Upload or search for room images",
      .plain "Step 4: Generate — AI creates styled visualizations",
      .plain "Step 5: Review & Approve — Side-by-side comparison",
      .plain "Step 6: Sync to Store — Approved images auto-sync" ] false
  let s9 ← add_content_slide "Review & Approval Experience"
    [ .group "Side-by-Side Comparison"
        [ "Original product image vs Generated scene",
          "Drag slider to compare",
          "Zoom sync between images" ],
      .group "Review Actions"
        [ "✓ Approve — Mark for store sync (free)",
          "✎ Edit — Open editor modal (free)",
          "↻ Regenerate — New version (1 credit)",
          "✗ Reject — Keep in library, no sync (free)" ],
      .group "Bulk Review Mode"
        [ "Keyboard shortcuts: A (approve), R (reject), E (edit)",
          "Arrow keys to navigate",
          "Progress indicator: \u002715 of 45 reviewed\u0027" ] ] false
  let s10 ← add_table_slide "Credit System"
    ["Action", "Credits", "Notes"]
    [ ["Generate image", "1", "Per image variation"],
      ["Regenerate", "1", "New version with same/new settings"],
      ["Approve", "0", "Free — marks for sync"],
      ["Edit", "0", "Free — opens editor"],
      ["Download", "0", "Free — always available"],
      ["Reject", "0", "Free — stays in library"] ]
  let s11 ← add_table_slide "Imported vs Uploaded Products"
    ["Feature", "Imported", "Uploaded"]
    [ ["Generate images", "✓", "✓"],
      ["Edit images", "✓", "✓"],
      ["Download images", "✓", "✓"],
      ["Favorite / Tag", "✓", "✓"],
      ["Approve for Store", "✓", "✗"],
      ["Sync to Store", "✓", "✗"],
      ["ERP ID tracking", "✓", "✗"] ]
  let s12 ← add_content_slide "Key Screens"
    [ .group "Dashboard" ["Recent generations", "Quick stats", "Pending review items"],
      .group "Products Library"
        ["Searchable catalog", "Source badges (Imported/Uploaded)", "Quick actions"],
      .group "Collection Wizard"
        ["4-step guided flow", "Product selection → Settings → Generation"],
      .group "Review Gallery"
        ["Grid view with status filters", "Bulk actions", "Approval workflow"],
      .group "Store Sync Dashboard" ["Connection status", "Sync queue", "History"] ] false
  let s13 ← add_content_slide "AI Product Analysis"
    [ .plain "Products are analyzed to understand:",
      .plain "• Product type (sofa, desk, lamp, etc.)",
      .plain "• Materials (leather, wood, metal, fabric)",
      .plain "• Color palette (primary and accent colors)",
      .plain "• Style (modern, rustic, minimalist)",
      .plain "• Best room types (living room, bedroom, office)",
      .plain "",
      .plain "This analysis improves prompt engineering for better results!" ] false
  let s14 ← add_content_slide "Store Sync Workflow"
    [ .plain "1. Connect Store — One-time OAuth setup (Shopify, WooCommerce, BigCommerce)",
      .plain "2. Import Products — Products get ERP ID for tracking",
      .plain "3. Generate Images — Normal generation workflow",
      .plain "4. Review & Approve — Mark images as \u0027Approved for Store\u0027",
      .plain "5. Auto-Sync — Approved images automatically sync to product pages",
      .plain "6. Track Status — View sync history, pending, failed items" ] false
  let s15 ← add_content_slide "✨ Key Features"
    [ .plain "🔗 Bidirectional Sync — Import from store, export images back",
      .plain "🤖 AI-Powered Analysis — Better prompts from product understanding",
      .plain "👁️ Side-by-Side Review — Easy comparison for quality control",
      .plain "⚡ Bulk Generation — 50+ products at once with consistent style",
      .plain "📦 WebP Optimization — Images ready for CDN delivery",
      .plain "⌨️ Keyboard Shortcuts — Fast review with A/R/E keys",
      .plain "💳 Transparent Credits — Always know the cost before action" ] false
  let s16 ← add_content_slide "📱 Mobile Responsive"
    [ .plain "Dashboard — Stats cards, quick actions",
      .plain "Products — Grid view, swipe navigation",
      .plain "Review — Full-screen images, tap actions",
      .plain "Bottom navigation — Home, Products, Generate, Settings" ] false
  let s17 ← add_content_slide "Roadmap"
    [ .group "Now: MVP (Q1 2026)"
        [ "Collection Sessions (bulk generation)",
          "Standalone Generation Flows",
          "WebP optimization",
          "Approval workflow",
          "Store sync preparation" ],
      .group "Next: Q2 2026"
        [ "Full store sync (Shopify, WooCommerce, BigCommerce)",
          "In-image editing (mask and regenerate)",
          "Video generation (product turntables)" ],
      .group "Later: Q3-Q4 2026"
        [ "API access for developers",
          "3D model generation",
          "Advanced analytics dashboard" ] ] false
  let s18 := add_title_slide "🎨 Scenergy Visualizer"
    "Questions? Contact the Product Team\n\nSee Design Logs #001-#008 for technical details"
  pure [s1, s2, s3, s4, s5, s6, s7, s8, s9, s10, s11, s12, s13, s14, s15, s16, s17, s18]

/-- Embeds `output_path = "Scenergy-Visualizer-UI-Slideshow.pptx"`. -/
def output_path : String := "Scenergy-Visualizer-UI-Slideshow.pptx"

/-- The whole run: build the deck, save it to `output_path` (overwriting
whatever is there), and print the two f-string lines. -/
def mainRun : Except String (List Slide × List String) := do
  let deck ← theDeck
  pure (deck,
    [ "✅ Presentation saved to: " ++ output_path,
      "   Total slides: " ++ toString deck.length ])

/-- The lines the run prints (empty if the run failed). -/
def printedLines : List String :=
  match mainRun with
  | .ok p => p.2
  | .error _ => []

/-- One run of the generator, as a function of the artifact (slide count)
the output path may already hold.  The script constructs a fresh
`Presentation()` and never reads the existing file, so the prior artifact
is ignored and simply overwritten; the result is the
slide count of the saved artifact. -/
def runGenerator (_prior : Option Nat) : Except String Nat :=
  theDeck.map List.length

/-- Does `pat` occur as a contiguous run at the start of `l`? -/
def charsStartWith : List Char → List Char → Bool
  | [], _ => true
  | _ :: _, [] => false
  | p :: ps, c :: cs => p == c && charsStartWith ps cs

/-- Does `pat` occur as a contiguous run anywhere in `l`? -/
def charsContain (pat : List Char) : List Char → Bool
  | [] => charsStartWith pat []
  | c :: cs => charsStartWith pat (c :: cs) || charsContain pat cs

/-- Substring test on strings (via their character lists). -/
def strContains (s pat : String) : Bool := charsContain pat.data s.data

/-! ### Composer calls as a sum type (for the append-only deck property) -/

/-- A single composer invocation, tagged by kind with its payload. -/
inductive ComposerCall where
  | title (t sub : String)
  | content (t : String) (items : List ContentItem) (has_columns : Bool)
  | diagram (t text : String)
  | table (t : String) (headers : List String) (rows : List (List String))
  | flow (t : String) (cards : List (String × List String))

/-- The slide a composer call renders (the fallible kinds in `Except`). -/
def slideOfCall : ComposerCall → Except String Slide
  | .title t sub => .ok (add_title_slide t sub)
  | .content t items hc => add_content_slide t items hc
  | .diagram t text => .ok (add_diagram_slide t text)
  | .table t headers rows => add_table_slide t headers rows
  | .flow t cards => .ok (add_flow_cards_slide t cards)

/-- Effect of one composer call on the deck: `prs.slides.add_slide`
appends the new slide at the end. -/
def applyCall (d : List Slide) (c : ComposerCall) : Except String (List Slide) :=
  match slideOfCall c with
  | .ok s => .ok (d ++ [s])
  | .error e => .error e

/-- A sequence of composer calls applied in order. -/
def foldCalls (d : List Slide) : List ComposerCall → Except String (List Slide)
  | [] => .ok d
  | c :: cs =>
    match applyCall d c with
    | .ok d' => foldCalls d' cs
    | .error e => .error e

/-- Did the `Except` computation succeed? -/
def exceptOk {ε α : Type} : Except ε α → Bool
  | .ok _ => true
  | .error _ => false

/-- The five slide kinds the composer produces. -/
inductive SlideTag where
  | titleS
  | contentS
  | diagramS
  | tableS
  | flowS
deriving DecidableEq, Repr

/-- Classify a rendered slide by its shapes: a table shape marks a Table
slide; a no-wrap text box marks a Diagram slide; a rounded card panel
marks a FlowCards slide; two plain rectangles (background plus title bar)
mark a Content slide; otherwise it is a Title slide. -/
def tagOf (s : Slide) : SlideTag :=
  if s.shapes.any fun sh => match sh with | .tbl _ => true | _ => false then .tableS
  else if s.shapes.any fun sh => match sh with
    | .tbox b => b.wordWrap == some false
    | _ => false then .diagramS
  else if s.shapes.any Shape.isCardPanel then .flowS
  else if 2 ≤ s.shapes.countP fun sh => match sh with
    | .auto .rect _ _ _ _ _ _ _ => true
    | _ => false then .contentS
  else .titleS

/-! ### Helper lemmas about the table-building loops -/

/-- Geometry and dimensions of a table are untouched by a cell write. -/
theorem setCell_ok_spec (t : TableShape) (r c : Nat) (v : TCell)
    (hr : r < t.nRows) (hc : c < t.nCols) :
    setCell t r c v =
      .ok { t with cell := fun r' c' => if r' = r ∧ c' = c then v else t.cell r' c' } := by
  simp [setCell, hr, hc]

/-- Successful run of the header loop: dimensions and geometry are kept,
cells outside row 0 and columns written are kept, and row 0 receives the
header cells. -/
theorem writeHeaders_ok_spec (hs : List String) :
    ∀ (i : Nat) (t : TableShape), 0 < t.nRows → i + hs.length ≤ t.nCols →
    ∃ t2, writeHeaders i hs t = .ok t2 ∧
      t2.nRows = t.nRows ∧ t2.nCols = t.nCols ∧
      t2.left = t.left ∧ t2.top = t.top ∧ t2.width = t.width ∧ t2.height = t.height ∧
      (∀ r c, r ≠ 0 → t2.cell r c = t.cell r c) ∧
      (∀ c, c < i → t2.cell 0 c = t.cell 0 c) ∧
      (∀ j, (hj : j < hs.length) → t2.cell 0 (i + j) = headerCell (hs.get ⟨j, hj⟩)) := by
  induction hs with
  | nil =>
    intro i t _ _
    exact ⟨t, rfl, rfl, rfl, rfl, rfl, rfl, rfl,
      fun _ _ _ => rfl, fun _ _ => rfl, fun j hj => absurd hj (Nat.not_lt_zero j)⟩
  | cons h rest ih =>
    intro i t hrows hcols
    have hi : i < t.nCols := by simp at hcols; omega
    have hset := setCell_ok_spec t 0 i (headerCell h) hrows hi
    set t1 : TableShape :=
      { t with cell := fun r' c' => if r' = 0 ∧ c' = i then headerCell h else t.cell r' c' }
      with ht1
    obtain ⟨t2, heq, hR, hC, hL, hT, hW, hH, hOther, hBelow, hAt⟩ :=
      ih (i + 1) t1 (by simpa using hrows) (by simp at hcols ⊢; omega)
    refine ⟨t2, ?_, hR, hC, hL, hT, hW, hH, ?_, ?_, ?_⟩
    · rw [writeHeaders, hset]
      exact heq
    · intro r c hr
      rw [hOther r c hr, ht1]
      simp [hr]
    · intro c hc
      rw [hBelow c (by omega), ht1]
      simp [Nat.ne_of_lt hc]
    · intro j hj
      match j with
      | 0 =>
        rw [Nat.add_zero, hBelow i (Nat.lt_succ_self i), ht1]
        simp
      | j' + 1 =>
        have := hAt j' (by simpa using hj)
        rw [show i + (j' + 1) = (i + 1) + j' by omega, this]
        rfl

/-- Successful run of the inner data loop: dimensions and geometry kept,
all rows other than `r` kept. -/
theorem writeRow_ok_spec (row : List String) :
    ∀ (r ci : Nat) (t : TableShape), r < t.nRows → ci + row.length ≤ t.nCols →
    ∃ t2, writeRow r ci row t = .ok t2 ∧
      t2.nRows = t.nRows ∧ t2.nCols = t.nCols ∧
      t2.left = t.left ∧ t2.top = t.top ∧ t2.width = t.width ∧ t2.height = t.height ∧
      (∀ r' c', r' ≠ r → t2.cell r' c' = t.cell r' c') := by
  induction row with
  | nil =>
    intro r ci t _ _
    exact ⟨t, rfl, rfl, rfl, rfl, rfl, rfl, rfl, fun _ _ _ => rfl⟩
  | cons v rest ih =>
    intro r ci t hr hci
    have hcin : ci < t.nCols := by simp at hci; omega
    have hset := setCell_ok_spec t r ci (dataCell v) hr hcin
    set t1 : TableShape :=
      { t with cell := fun r' c' => if r' = r ∧ c' = ci then dataCell v else t.cell r' c' }
      with ht1
    obtain ⟨t2, heq, hR, hC, hL, hT, hW, hH, hOther⟩ :=
      ih r (ci + 1) t1 (by simpa using hr) (by simp at hci ⊢; omega)
    refine ⟨t2, ?_, hR, hC, hL, hT, hW, hH, ?_⟩
    · rw [writeRow, hset]
      exact heq
    · intro r' c' hne
      rw [hOther r' c' hne, ht1]
      simp [hne]

/-- Successful run of the outer data loop: dimensions, geometry and the
header row (row 0) are kept. -/
theorem writeRows_ok_spec (rs : List (List String)) :
    ∀ (ri : Nat) (t : TableShape), (∀ row ∈ rs, row.length ≤ t.nCols) →
      ri + rs.length < t.nRows →
    ∃ t2, writeRows ri rs t = .ok t2 ∧
      t2.nRows = t.nRows ∧ t2.nCols = t.nCols ∧
      t2.left = t.left ∧ t2.top = t.top ∧ t2.width = t.width ∧ t2.height = t.height ∧
      (∀ c, t2.cell 0 c = t.cell 0 c) := by
  induction rs with
  | nil =>
    intro ri t _ _
    exact ⟨t, rfl, rfl, rfl, rfl, rfl, rfl, rfl, fun _ => rfl⟩
  | cons row rest ih =>
    intro ri t hlen hri
    obtain ⟨t1, heq1, hR1, hC1, hL1, hT1, hW1, hH1, hOther1⟩ :=
      writeRow_ok_spec row (ri + 1) 0 t (by simp at hri; omega)
        (by simpa using hlen row (List.mem_cons_self row rest))
    obtain ⟨t2, heq2, hR2, hC2, hL2, hT2, hW2, hH2, hRow0⟩ :=
      ih (ri + 1) t1
        (fun r hr => hC1 ▸ hlen r (List.mem_cons_of_mem row hr))
        (by simp at hri ⊢; omega)
    refine ⟨t2, ?_, by omega, by rw [hC2, hC1], by rw [hL2, hL1], by rw [hT2, hT1],
      by rw [hW2, hW1], by rw [hH2, hH1], ?_⟩
    · rw [writeRows, heq1]
      exact heq2
    · intro c
      rw [hRow0 c, hOther1 0 c (by omega)]

/-- The inner data loop fails with `IndexError` as soon as a row overruns
the column count. -/
theorem writeRow_err_spec (row : List String) :
    ∀ (r ci : Nat) (t : TableShape), r < t.nRows → ci ≤ t.nCols →
      t.nCols < ci + row.length →
      writeRow r ci row t = .error "IndexError" := by
  induction row with
  | nil =>
    intro r ci t _ hle hlt
    simp at hlt
    omega
  | cons v rest ih =>
    intro r ci t hr hle hlt
    by_cases hci : ci < t.nCols
    · have hset := setCell_ok_spec t r ci (dataCell v) hr hci
      rw [writeRow, hset]
      exact ih r (ci + 1) _ (by simpa using hr) (by simpa using hci)
        (by simp at hlt ⊢; omega)
    · have : ¬ (r < t.nRows ∧ ci < t.nCols) := fun hcon => hci hcon.2
      rw [writeRow, setCell, if_neg this]

/-- The outer data loop fails with `IndexError` whenever some row is
longer than the column count. -/
theorem writeRows_err_spec (rs : List (List String)) :
    ∀ (ri : Nat) (t : TableShape), ri + rs.length < t.nRows →
      (∃ row ∈ rs, t.nCols < row.length) →
      writeRows ri rs t = .error "IndexError" := by
  induction rs with
  | nil =>
    intro ri t _ hbad
    simp at hbad
  | cons row rest ih =>
    intro ri t hri hbad
    by_cases hlong : t.nCols < row.length
    · rw [writeRows,
        writeRow_err_spec row (ri + 1) 0 t (by simp at hri; omega) (Nat.zero_le _)
          (by simpa using hlong)]
    · obtain ⟨t1, heq1, hR1, hC1, _, _, _, _, _⟩ :=
        writeRow_ok_spec row (ri + 1) 0 t (by simp at hri; omega) (by omega)
      rw [writeRows, heq1]
      obtain ⟨bad, hmem, hblen⟩ := hbad
      have hbad' : bad ∈ rest := by
        rcases List.mem_cons.mp hmem with h | h
        · exact absurd (h ▸ hblen) hlong
        · exact h
      exact ih (ri + 1) t1 (by simp at hri ⊢; omega) ⟨bad, hbad', hC1 ▸ hblen⟩

/-- The only error a cell write produces is an `IndexError`. -/
theorem setCell_err_name (t : TableShape) (r c : Nat) (v : TCell) (e : String)
    (h : setCell t r c v = .error e) : e = "IndexError" := by
  rw [setCell] at h
  split at h
  · exact absurd h (by simp)
  · simp at h
    exact h.symm

/-- Any error the header loop produces is an `IndexError`. -/
theorem writeHeaders_err_name (hs : List String) :
    ∀ (i : Nat) (t : TableShape) (e : String),
      writeHeaders i hs t = .error e → e = "IndexError" := by
  induction hs with
  | nil => intro i t e h; simp [writeHeaders] at h
  | cons hd rest ih =>
    intro i t e h
    rw [writeHeaders] at h
    rcases hcell : setCell t 0 i (headerCell hd) with e1 | t1
    · rw [hcell] at h
      simp at h
      exact h.symm.trans (setCell_err_name t 0 i (headerCell hd) e1 hcell)
    · rw [hcell] at h
      exact ih (i + 1) t1 e h

/-- Any error the inner data loop produces is an `IndexError`. -/
theorem writeRow_err_name (row : List String) :
    ∀ (r ci : Nat) (t : TableShape) (e : String),
      writeRow r ci row t = .error e → e = "IndexError" := by
  induction row with
  | nil => intro r ci t e h; simp [writeRow] at h
  | cons v rest ih =>
    intro r ci t e h
    rw [writeRow] at h
    rcases hcell : setCell t r ci (dataCell v) with e1 | t1
    · rw [hcell] at h
      simp at h
      exact h.symm.trans (setCell_err_name t r ci (dataCell v) e1 hcell)
    · rw [hcell] at h
      exact ih r (ci + 1) t1 e h

/-- Any error the outer data loop produces is an `IndexError`. -/
theorem writeRows_err_name (rs : List (List String)) :
    ∀ (ri : Nat) (t : TableShape) (e : String),
      writeRows ri rs t = .error e → e = "IndexError" := by
  induction rs with
  | nil => intro ri t e h; simp [writeRows] at h
  | cons row rest ih =>
    intro ri t e h
    rw [writeRows] at h
    rcases hrow : writeRow (ri + 1) 0 row t with e1 | t1
    · rw [hrow] at h
      simp at h
      exact h.symm.trans (writeRow_err_name row (ri + 1) 0 t e1 hrow)
    · rw [hrow] at h
      exact ih (ri + 1) t1 e h

/-- Full success specification of `add_table_slide` under in-range rows:
the slide consists of the standard prologue plus one table of the stated
grid dimensions and geometry, whose header row holds the header cells. -/
theorem add_table_slide_ok_spec (title : String) (headers : List String)
    (rows : List (List String)) (hne : headers.length ≠ 0)
    (hlen : ∀ row ∈ rows, row.length ≤ headers.length) :
    ∃ t2, add_table_slide title headers rows = .ok ⟨slideBase title ++ [.tbl t2]⟩ ∧
      t2.nRows = rows.length + 1 ∧ t2.nCols = headers.length ∧
      t2.left = 1/2 ∧ t2.top = 8/5 ∧ t2.width = 12 ∧
      t2.height = 1/2 * ((rows.length + 1 : ℕ) : ℚ) ∧
      (∀ c, (hc : c < headers.length) →
        t2.cell 0 c = headerCell (headers.get ⟨c, hc⟩)) := by
  obtain ⟨t1, heq1, hR1, hC1, hL1, hT1, hW1, hH1, _, _, hHdr⟩ :=
    writeHeaders_ok_spec headers 0
      { nRows := rows.length + 1, nCols := headers.length,
        left := 1/2, top := 8/5, width := 12, height := 1/2 * (rows.length + 1 : Nat),
        cell := fun _ _ => emptyCell }
      (Nat.succ_pos _) (by simp)
  obtain ⟨t2, heq2, hR2, hC2, hL2, hT2, hW2, hH2, hRow0⟩ :=
    writeRows_ok_spec rows 0 t1
      (fun row hr => by rw [hC1]; exact hlen row hr)
      (by rw [hR1]; show 0 + rows.length < rows.length + 1; omega)
  refine ⟨t2, ?_, by rw [hR2, hR1], by rw [hC2, hC1], by rw [hL2, hL1],
    by rw [hT2, hT1], by rw [hW2, hW1], by rw [hH2, hH1], ?_⟩
  · rw [add_table_slide, if_neg hne]
    simp only [heq1, heq2]
  · intro c hc
    rw [hRow0 c]
    have h2 := hHdr c hc
    rwa [Nat.zero_add] at h2

/-- Failure specification of `add_table_slide`: with a nonempty header
list, a data row longer than the headers makes the call fail with the
`IndexError` of the backend. -/
theorem add_table_slide_err_long (title : String) (headers : List String)
    (rows : List (List String)) (hne : headers.length ≠ 0)
    (hbad : ∃ row ∈ rows, headers.length < row.length) :
    add_table_slide title headers rows = .error "IndexError" := by
  obtain ⟨t1, heq1, hR1, hC1, _, _, _, _, _, _, _⟩ :=
    writeHeaders_ok_spec headers 0
      { nRows := rows.length + 1, nCols := headers.length,
        left := 1/2, top := 8/5, width := 12, height := 1/2 * (rows.length + 1 : ℕ),
        cell := fun _ _ => emptyCell }
      (Nat.succ_pos _) (by simp)
  rw [add_table_slide, if_neg hne]
  simp only [heq1]
  rw [writeRows_err_spec rows 0 t1
    (by rw [hR1]; show 0 + rows.length < rows.length + 1; omega)
    (by obtain ⟨bad, hmem, hlong⟩ := hbad; exact ⟨bad, hmem, by rw [hC1]; exact hlong⟩)]

/-! ### Claim theorems about `add_table_slide` -/

/-- C1: for every Table slide built from headers `H` and data rows `R`
(well-formed per the row-length invariant), the rendered grid has exactly
`len(H)` columns and `len(R) + 1` rows, and for every column `c < len(H)`
cell `(0, c)` holds `H[c]`, rendered with `PRIMARY` fill, bold, centered,
white text. -/
theorem table_slide_grid_and_header_row (title : String) (headers : List String)
    (rows : List (List String)) (hne : headers ≠ [])
    (hlen : ∀ row ∈ rows, row.length = headers.length) :
    ∃ s t, add_table_slide title headers rows = .ok s ∧
      Shape.tbl t ∈ s.shapes ∧
      t.nCols = headers.length ∧ t.nRows = rows.length + 1 ∧
      ∀ c, (hc : c < headers.length) →
        (t.cell 0 c).text = headers.get ⟨c, hc⟩ ∧
        (t.cell 0 c).fill = some PRIMARY ∧
        (t.cell 0 c).bold = some true ∧
        (t.cell 0 c).alignment = some PPAlign.center ∧
        (t.cell 0 c).color = some TEXT_WHITE := by
  obtain ⟨t2, heq, hR, hC, _, _, _, _, hHdr⟩ :=
    add_table_slide_ok_spec title headers rows
      (fun h0 => hne (List.length_eq_zero.mp h0))
      (fun row hr => le_of_eq (hlen row hr))
  refine ⟨_, t2, heq, by simp, hC, hR, ?_⟩
  intro c hc
  rw [hHdr c hc]
  exact ⟨rfl, rfl, rfl, rfl, rfl⟩

/-- Witness for C1 at a concrete table slide. -/
theorem table_slide_grid_and_header_row_witness :
    ∃ s t, add_table_slide "T" ["A"] [["x"]] = .ok s ∧
      Shape.tbl t ∈ s.shapes ∧
      t.nCols = (["A"] : List String).length ∧
      t.nRows = ([["x"]] : List (List String)).length + 1 ∧
      ∀ c, (hc : c < (["A"] : List String).length) →
        (t.cell 0 c).text = (["A"] : List String).get ⟨c, hc⟩ ∧
        (t.cell 0 c).fill = some PRIMARY ∧
        (t.cell 0 c).bold = some true ∧
        (t.cell 0 c).alignment = some PPAlign.center ∧
        (t.cell 0 c).color = some TEXT_WHITE :=
  table_slide_grid_and_header_row "T" ["A"] [["x"]] (by decide) (by decide)

/-- C7: for every rendered Table slide, the width the backend gives each
column is the body width divided evenly by the header count, and the
height it gives each row is the fixed `Inches(0.5)`. -/
theorem table_slide_even_columns_fixed_rows (title : String) (headers : List String)
    (rows : List (List String)) (hne : headers ≠ [])
    (hlen : ∀ row ∈ rows, row.length = headers.length) :
    ∃ s t, add_table_slide title headers rows = .ok s ∧
      Shape.tbl t ∈ s.shapes ∧
      colWidthOf t = bodyWidth / (headers.length : ℚ) ∧
      rowHeightOf t = 1/2 := by
  obtain ⟨t2, heq, hR, hC, _, _, hW, hH, _⟩ :=
    add_table_slide_ok_spec title headers rows
      (fun h0 => hne (List.length_eq_zero.mp h0))
      (fun row hr => le_of_eq (hlen row hr))
  refine ⟨_, t2, heq, by simp, ?_, ?_⟩
  · rw [colWidthOf, hW, hC, bodyWidth]
  · rw [rowHeightOf, hH, hR]
    have hnz : ((rows.length + 1 : ℕ) : ℚ) ≠ 0 :=
      Nat.cast_ne_zero.mpr (Nat.succ_ne_zero _)
    rw [mul_div_assoc, div_self hnz, mul_one]

/-- Witness for C7 at a concrete table slide. -/
theorem table_slide_even_columns_fixed_rows_witness :
    ∃ s t, add_table_slide "T" ["A", "B"] [["x", "y"]] = .ok s ∧
      Shape.tbl t ∈ s.shapes ∧
      colWidthOf t = bodyWidth / ((["A", "B"] : List String).length : ℚ) ∧
      rowHeightOf t = 1/2 :=
  table_slide_even_columns_fixed_rows "T" ["A", "B"] [["x", "y"]] (by decide) (by decide)

/-- C10: an empty header list makes the `12 / num_cols` computation raise
`ZeroDivisionError` before any table shape exists; a nonempty header list
can never produce that error. -/
theorem table_slide_empty_headers_division (title : String) (headers : List String)
    (rows : List (List String)) :
    (headers = [] → add_table_slide title headers rows = .error "ZeroDivisionError") ∧
    (headers ≠ [] → add_table_slide title headers rows ≠ .error "ZeroDivisionError") := by
  constructor
  · intro h
    subst h
    rfl
  · intro hne hcon
    have hne0 : headers.length ≠ 0 := fun h0 => hne (List.length_eq_zero.mp h0)
    rcases Classical.em (∃ row ∈ rows, headers.length < row.length) with hbad | hgood
    · rw [add_table_slide_err_long title headers rows hne0 hbad] at hcon
      simp at hcon
    · push_neg at hgood
      obtain ⟨t2, heq, _⟩ :=
        add_table_slide_ok_spec title headers rows hne0
          (fun row hr => hgood row hr)
      rw [heq] at hcon
      exact absurd hcon (by simp)

/-- Witness for C10 at concrete inputs, one per branch. -/
theorem table_slide_empty_headers_division_witness :
    (add_table_slide "T" ([] : List String) [["x"]] = .error "ZeroDivisionError") ∧
    (add_table_slide "T" ["A"] [["x"]] ≠ .error "ZeroDivisionError") :=
  ⟨(table_slide_empty_headers_division "T" [] [["x"]]).1 rfl,
   (table_slide_empty_headers_division "T" ["A"] [["x"]]).2 (by decide)⟩

/-- C6 counterexample: a data row SHORTER than the headers (length 1
versus 2) does not fail at all — the slide renders, so a mere length
mismatch is silently tolerated, contradicting the claim that any
mismatched row length terminates the program. -/
theorem table_short_row_is_tolerated :
    exceptOk (add_table_slide "T" ["A", "B"] [["x"]]) = true := rfl

/-- C6 as amended: with a nonempty header list, a data row longer than
the headers propagates the backend `IndexError` uncaught, while rows no
longer than the headers are silently tolerated (the call succeeds, the
trailing cells stay empty). -/
theorem table_row_length_mismatch (title : String) (headers : List String)
    (rows : List (List String)) (hne : headers ≠ []) :
    ((∃ row ∈ rows, headers.length < row.length) →
        add_table_slide title headers rows = .error "IndexError") ∧
    ((∀ row ∈ rows, row.length ≤ headers.length) →
        exceptOk (add_table_slide title headers rows) = true) := by
  have hne0 : headers.length ≠ 0 := fun h0 => hne (List.length_eq_zero.mp h0)
  constructor
  · exact add_table_slide_err_long title headers rows hne0
  · intro hlen
    obtain ⟨t2, heq, _⟩ := add_table_slide_ok_spec title headers rows hne0 hlen
    rw [heq]
    rfl

/-- Witness for the amended C6, one concrete input per branch. -/
theorem table_row_length_mismatch_witness :
    (add_table_slide "T" ["A"] [["x", "y"]] = .error "IndexError") ∧
    (exceptOk (add_table_slide "T" ["A"] [["x"]]) = true) :=
  ⟨(table_row_length_mismatch "T" ["A"] [["x", "y"]] (by decide)).1
      ⟨["x", "y"], by decide, by decide⟩,
   (table_row_length_mismatch "T" ["A"] [["x"]] (by decide)).2 (by decide)⟩

/-! ### Claim theorems about `add_flow_cards_slide` -/

/-- Each iteration of the card loop emits exactly one card panel. -/
theorem flowCardShapes_count_panel (n i : Nat) (ct : String) (its : List String) :
    (flowCardShapes n i ct its).countP Shape.isCardPanel = 1 := by
  rw [flowCardShapes]
  by_cases h : i < n - 1 <;>
    simp [h, List.countP_append, List.countP_cons, Shape.isCardPanel]

/-- Each iteration of the card loop emits one arrow exactly when it is
not the last iteration. -/
theorem flowCardShapes_count_arrow (n i : Nat) (ct : String) (its : List String) :
    (flowCardShapes n i ct its).countP Shape.isArrow = if i < n - 1 then 1 else 0 := by
  rw [flowCardShapes]
  by_cases h : i < n - 1 <;>
    simp [h, List.countP_append, List.countP_cons, Shape.isArrow]

/-- The card loop emits one panel per card. -/
theorem flowLoop_count_panel (cards : List (String × List String)) :
    ∀ n i, (flowLoop n i cards).countP Shape.isCardPanel = cards.length := by
  induction cards with
  | nil => intro n i; simp [flowLoop]
  | cons c rest ih =>
    intro n i
    obtain ⟨ct, its⟩ := c
    rw [flowLoop, List.countP_append, flowCardShapes_count_panel, ih]
    simp [Nat.add_comm]

/-- Starting at index `i` with `i + cards.length = n`, the card loop
emits `cards.length - 1` arrows. -/
theorem flowLoop_count_arrow (cards : List (String × List String)) :
    ∀ n i, i + cards.length = n →
      (flowLoop n i cards).countP Shape.isArrow = cards.length - 1 := by
  induction cards with
  | nil => intro n i _; simp [flowLoop]
  | cons c rest ih =>
    intro n i h
    obtain ⟨ct, its⟩ := c
    rw [flowLoop, List.countP_append, flowCardShapes_count_arrow]
    cases rest with
    | nil =>
      rw [if_neg (by simp at h; omega)]
      simp [flowLoop]
    | cons r rs =>
      rw [if_pos (by simp at h; omega), ih n (i + 1) (by simp at h ⊢; omega)]
      simp only [List.length_cons]
      omega

/-- Every card index contributes a panel at its computed left position. -/
theorem flowLoop_panel_mem (cards : List (String × List String)) :
    ∀ n i j, j < cards.length →
      ∃ sh ∈ flowLoop n i cards, sh.isCardPanel = true ∧ sh.leftQ = cardLeft (i + j) := by
  induction cards with
  | nil => intro n i j hj; simp at hj
  | cons c rest ih =>
    intro n i j hj
    obtain ⟨ct, its⟩ := c
    match j with
    | 0 =>
      refine ⟨.auto .roundedRect (cardLeft i) (8/5) card_width (9/2)
        (some CARD_BG) (some PRIMARY) (some 2), ?_, rfl,
        by simp [Shape.leftQ, Nat.add_zero]⟩
      rw [flowLoop, flowCardShapes]
      simp
    | j' + 1 =>
      obtain ⟨sh, hmem, hpanel, hleft⟩ := ih n (i + 1) j' (by simpa using hj)
      refine ⟨sh, ?_, hpanel, ?_⟩
      · rw [flowLoop]
        exact List.mem_append_right _ hmem
      · rw [hleft]
        congr 1
        omega

/-- Every arrow the card loop emits sits at the connector position of
some non-final card index. -/
theorem flowLoop_arrow_pos (cards : List (String × List String)) :
    ∀ n i, i + cards.length = n →
      ∀ sh ∈ flowLoop n i cards, sh.isArrow = true →
        ∃ k, k + 1 < n ∧ sh.leftQ = cardLeft k + card_width + 1/20 ∧ sh.widthQ = 1/5 := by
  induction cards with
  | nil => intro n i _ sh hmem; simp [flowLoop] at hmem
  | cons c rest ih =>
    intro n i h sh hmem harrow
    obtain ⟨ct, its⟩ := c
    rw [flowLoop] at hmem
    rcases List.mem_append.mp hmem with hm | hm
    · rw [flowCardShapes] at hm
      rcases List.mem_append.mp hm with hm2 | hm2
      · simp at hm2
        rcases hm2 with rfl | rfl | rfl <;> simp [Shape.isArrow] at harrow
      · by_cases hlt : i < n - 1
        · rw [if_pos hlt] at hm2
          rw [List.mem_singleton] at hm2
          subst hm2
          exact ⟨i, by omega, rfl, rfl⟩
        · rw [if_neg hlt] at hm2
          simp at hm2
    · exact ih n (i + 1) (by simp at h ⊢; omega) sh hm harrow

/-- C2: a FlowCards slide with `N` cards renders exactly `N` rounded card
panels, left-to-right at the computed card positions, and exactly `N - 1`
right-arrow connectors, each lying strictly inside the gap between a
consecutive pair of cards (hence never after the last card). -/
theorem flow_cards_panels_and_arrows (title : String) (cards : List (String × List String)) :
    ((add_flow_cards_slide title cards).shapes.countP Shape.isCardPanel = cards.length) ∧
    ((add_flow_cards_slide title cards).shapes.countP Shape.isArrow = cards.length - 1) ∧
    (∀ j, j < cards.length → ∃ sh ∈ (add_flow_cards_slide title cards).shapes,
        sh.isCardPanel = true ∧ sh.leftQ = cardLeft j) ∧
    (∀ sh ∈ (add_flow_cards_slide title cards).shapes, sh.isArrow = true →
        ∃ k, k + 1 < cards.length ∧
          cardLeft k + card_width < sh.leftQ ∧
          sh.leftQ + sh.widthQ < cardLeft (k + 1)) := by
  refine ⟨?_, ?_, ?_, ?_⟩
  · show (slideBase title ++ flowLoop cards.length 0 cards).countP Shape.isCardPanel
      = cards.length
    rw [List.countP_append, flowLoop_count_panel]
    simp [slideBase, List.countP_cons, Shape.isCardPanel]
  · show (slideBase title ++ flowLoop cards.length 0 cards).countP Shape.isArrow
      = cards.length - 1
    rw [List.countP_append, flowLoop_count_arrow cards cards.length 0 (Nat.zero_add _)]
    simp [slideBase, List.countP_cons, Shape.isArrow]
  · intro j hj
    obtain ⟨sh, hmem, hp, hl⟩ := flowLoop_panel_mem cards cards.length 0 j hj
    refine ⟨sh, ?_, hp, by rw [hl]; congr 1; omega⟩
    show sh ∈ slideBase title ++ flowLoop cards.length 0 cards
    exact List.mem_append_right _ hmem
  · intro sh hmem harr
    have hmem2 : sh ∈ slideBase title ++ flowLoop cards.length 0 cards := hmem
    rcases List.mem_append.mp hmem2 with hm | hm
    · simp [slideBase] at hm
      rcases hm with rfl | rfl | rfl <;> simp [Shape.isArrow] at harr
    · obtain ⟨k, hk, hleft, hwidth⟩ :=
        flowLoop_arrow_pos cards cards.length 0 (Nat.zero_add _) sh hm harr
      refine ⟨k, hk, ?_, ?_⟩
      · rw [hleft]
        linarith
      · rw [hleft, hwidth, cardLeft, cardLeft, card_width]
        push_cast
        linarith

/-- Witness for C2 at a concrete two-card slide. -/
theorem flow_cards_panels_and_arrows_witness :
    ((add_flow_cards_slide "T" [("A", []), ("B", [])]).shapes.countP Shape.isCardPanel = 2) ∧
    ((add_flow_cards_slide "T" [("A", []), ("B", [])]).shapes.countP Shape.isArrow = 1) ∧
    (∀ j, j < ([("A", ([] : List String)), ("B", [])]).length →
      ∃ sh ∈ (add_flow_cards_slide "T" [("A", []), ("B", [])]).shapes,
        sh.isCardPanel = true ∧ sh.leftQ = cardLeft j) ∧
    (∀ sh ∈ (add_flow_cards_slide "T" [("A", []), ("B", [])]).shapes, sh.isArrow = true →
        ∃ k, k + 1 < ([("A", ([] : List String)), ("B", [])]).length ∧
          cardLeft k + card_width < sh.leftQ ∧
          sh.leftQ + sh.widthQ < cardLeft (k + 1)) :=
  flow_cards_panels_and_arrows "T" [("A", []), ("B", [])]

/-! ### Claim theorems about `add_content_slide` -/

/-- The single-column branch places no shape at the second-column
position `Inches(6.8)`. -/
theorem rendersTwoColumns_single (title : String) (items : List ContentItem) :
    rendersTwoColumns ⟨slideBase title ++
      [ .tbox ⟨1/2, 8/5, 12, 11/2, some true,
          loopParas (items.flatMap singleItemParas)⟩ ]⟩ = false := by
  simp only [rendersTwoColumns, slideBase, List.any_append, List.any_cons, List.any_nil,
    Shape.leftQ, Bool.or_false]
  norm_num [slide_width]

/-- Whenever the two-column condition is false, `add_content_slide`
renders the single full-width column. -/
theorem add_content_slide_single (title : String) (items : List ContentItem) (hc : Bool)
    (hcond : (hc && items.length == 2) = false) :
    add_content_slide title items hc = .ok ⟨slideBase title ++
      [ .tbox ⟨1/2, 8/5, 12, 11/2, some true,
          loopParas (items.flatMap singleItemParas)⟩ ]⟩ := by
  rw [add_content_slide, if_neg (by simp [hcond])]

/-- C3: a Content slide made of `(label, items)` groups renders the
two-column layout exactly when the flag is set and there are exactly two
groups; every other group count renders single-column, and no error is
ever raised (the call always returns a slide). -/
theorem content_two_columns_iff (title : String) (groups : List (String × List String))
    (flag : Bool) :
    ∃ s, add_content_slide title (groups.map fun g => ContentItem.group g.1 g.2) flag
        = .ok s ∧
      rendersTwoColumns s = (flag && groups.length == 2) := by
  by_cases hflag : flag = true
  · subst hflag
    by_cases hlen : groups.length = 2
    · obtain ⟨g1, g2, rfl⟩ := List.length_eq_two.mp hlen
      refine ⟨_, rfl, ?_⟩
      rw [show (true && ([g1, g2] : List (String × List String)).length == 2) = true from rfl]
      rw [rendersTwoColumns]
      apply List.any_eq_true.mpr
      refine ⟨.tbox ⟨colLeft 1, 8/5, 11/2, 1/2, none,
        [⟨g2.1, some 22, some true, some PRIMARY, none, none, none⟩]⟩, ?_, ?_⟩
      · simp [slideBase, twoColPair, twoColShapes, unpackPair]
      · simp [Shape.leftQ, colLeft]
    · have hcond : (true && (groups.map fun g => ContentItem.group g.1 g.2).length == 2)
          = false := by
        simp [hlen]
      refine ⟨_, add_content_slide_single title _ true hcond, ?_⟩
      rw [rendersTwoColumns_single]
      simp [hlen]
  · have hflag0 : flag = false := by revert hflag; cases flag <;> simp
    subst hflag0
    refine ⟨_, add_content_slide_single title _ false (by simp), ?_⟩
    rw [rendersTwoColumns_single]
    simp

/-- Witness for C3 at a concrete two-group content slide with the flag set. -/
theorem content_two_columns_iff_witness :
    ∃ s, add_content_slide "T"
        (([("A", ([] : List String)), ("B", [])]).map fun g => ContentItem.group g.1 g.2)
        true = .ok s ∧
      rendersTwoColumns s
        = (true && ([("A", ([] : List String)), ("B", [])]).length == 2) :=
  content_two_columns_iff "T" [("A", []), ("B", [])] true

/-! ### Claim theorem about `add_diagram_slide` -/

/-- C4: the diagram text block (shape index 4 of the slide) has word-wrap
disabled, and its rendered text content split on line breaks equals the
input diagram text split on line breaks. -/
theorem diagram_wordwrap_off_line_breaks_kept (title diagram_text : String) :
    ∃ b : TextBox,
      (add_diagram_slide title diagram_text).shapes.get? 4 = some (.tbox b) ∧
      b.wordWrap = some false ∧
      (frameText b.paras).splitOn "\n" = diagram_text.splitOn "\n" :=
  ⟨⟨4/5, 9/5, 11733/1000, 5, some false,
      [⟨diagram_text, some 11, none, some TEXT_WHITE, some "Courier New", none, none⟩]⟩,
    rfl, rfl, rfl⟩

/-! ### Claim theorems about the module-level run -/

/-- C5 counterexample: the run prints exactly two lines — one holding the
output path, one holding the slide count — and no single printed line
contains both the output filename and the literal count 18. -/
theorem main_prints_no_combined_line :
    printedLines = ["✅ Presentation saved to: Scenergy-Visualizer-UI-Slideshow.pptx",
      "   Total slides: 18"] ∧
    (printedLines.any fun l => strContains l output_path && strContains l "18") = false :=
  ⟨rfl, rfl⟩

/-- C5 as amended: the run succeeds with a deck of exactly 18 slides,
opening and closing with the authored title slides, and prints a line
containing the output filename and a (different) line containing the
literal count 18. -/
theorem main_deck_count_and_printed_lines :
    (mainRun.map fun p => p.1.length) = .ok 18 ∧
    (mainRun.map fun p => p.2.any fun l => strContains l output_path) = .ok true ∧
    (mainRun.map fun p => p.2.any fun l => strContains l "18") = .ok true ∧
    (mainRun.map fun p => p.1.head?) =
      .ok (some (add_title_slide "🎨 Scenergy Visualizer"
        "AI-Powered Product Visualization Platform")) ∧
    (mainRun.map fun p => p.1.getLast?) =
      .ok (some (add_title_slide "🎨 Scenergy Visualizer"
        "Questions? Contact the Product Team\n\nSee Design Logs #001-#008 for technical details")) ∧
    (mainRun.map fun p => p.1.map tagOf) =
      .ok [SlideTag.titleS, .contentS, .contentS, .contentS, .flowS, .tableS, .tableS,
        .contentS, .contentS, .tableS, .tableS, .contentS, .contentS, .contentS,
        .contentS, .contentS, .contentS, .titleS] :=
  ⟨rfl, rfl, rfl, rfl, rfl, rfl⟩

/-- C9: a run is a pure function of a fresh empty document — the prior
artifact at the output path is never read — so two consecutive runs both
save an 18-slide artifact, with no accumulation. -/
theorem two_runs_both_save_18 :
    ((do
        let a1 ← runGenerator none
        let a2 ← runGenerator (some a1)
        pure (a1, a2) : Except String (Nat × Nat)) = .ok (18, 18)) ∧
    ∀ prior : Option Nat, runGenerator prior = .ok 18 :=
  ⟨rfl, fun _ => rfl⟩

/-! ### Claim theorem about deck append-only growth -/

/-- Taking the length of the left part of an append recovers it. -/
theorem take_len_append {α : Type} (l1 l2 : List α) : (l1 ++ l2).take l1.length = l1 := by
  induction l1 with
  | nil => simp
  | cons a t ih => simp [ih]

/-- C8: a successful composer call appends exactly one slide at the end
of the deck, and a successful sequence of `k` calls grows the deck by
exactly `k` slides, leaving every previously appended slide in place. -/
theorem composer_calls_append_only :
    (∀ (d : List Slide) (c : ComposerCall) (d2 : List Slide),
        applyCall d c = .ok d2 → ∃ s, d2 = d ++ [s]) ∧
    (∀ (cs : List ComposerCall) (d d2 : List Slide),
        foldCalls d cs = .ok d2 →
          d2.length = d.length + cs.length ∧ d2.take d.length = d) := by
  have happly : ∀ (d : List Slide) (c : ComposerCall) (d2 : List Slide),
      applyCall d c = .ok d2 → ∃ s, d2 = d ++ [s] := by
    intro d c d2 h
    rw [applyCall] at h
    rcases hs : slideOfCall c with e | s
    · rw [hs] at h
      exact absurd h (by simp)
    · rw [hs] at h
      simp at h
      exact ⟨s, h.symm⟩
  refine ⟨happly, ?_⟩
  intro cs
  induction cs with
  | nil =>
    intro d d2 h
    rw [foldCalls] at h
    simp at h
    subst h
    simp
  | cons c rest ih =>
    intro d d2 h
    rw [foldCalls] at h
    rcases ha : applyCall d c with e | d1
    · rw [ha] at h
      exact absurd h (by simp)
    · rw [ha] at h
      obtain ⟨s, rfl⟩ := happly d c d1 ha
      obtain ⟨hlen, htake⟩ := ih (d ++ [s]) d2 h
      constructor
      · simp at hlen ⊢
        omega
      · have h1 : (d2.take (d.length + 1)).take d.length = d2.take d.length := by
          rw [List.take_take]
          congr 1
          omega
        rw [← h1, show d.length + 1 = (d ++ [s]).length from by simp, htake, take_len_append]

/-- Witness for C8: one concrete successful call appends one slide. -/
theorem composer_calls_append_only_witness :
    ∃ s, ([add_title_slide "A" ""] : List Slide) = [] ++ [s] :=
  composer_calls_append_only.1 [] (.title "A" "") [add_title_slide "A" ""] rfl

end Slideshow
